import Mathlib

/-!
Shallow embedding of `verify_frontend.py`, a Playwright script that navigates a
headless browser to `http://localhost:5173/onboarding` and checks whether an
unauthenticated visitor is redirected to the landing page.

The external world (browser automation library, target server, filesystem) is
modelled by an `Env` recording the outcome of every effectful call the script
makes: `p.chromium.launch()`, `browser.new_page()`, `page.goto(...)`,
`page.wait_for_load_state('networkidle')`, the value of `page.url` after
navigation settles, and `page.screenshot(...)`.  Each fallible call either
returns normally (`Except.ok ()`) or raises a Python exception whose message is
recorded (`Except.error e`).  `print` is modelled as appending a line to the
run's output and never fails.

A run's observable result (`RunResult`) is the ordered list of printed lines,
the list of screenshot paths written, the number of times `browser.close()` was
invoked, and the exception, if any, that escaped the script to the interpreter
(which then exits with a nonzero status).
-/

/-- The base URL, `http://localhost:5173`, as the literal on line 22 of the
script (the right-hand side of the comparison). -/
def baseUrl : String := "http://localhost:5173"

/-- The protected URL navigated to on line 6: `http://localhost:5173/onboarding`. -/
def protectedUrl : String := "http://localhost:5173/onboarding"

/-- The landing-page URL with its trailing slash, `http://localhost:5173/`. -/
def landingUrl : String := "http://localhost:5173/"

/-- The fixed relative path of the screenshot artifact, line 27. -/
def screenshotPath : String := "verification_redirect.png"

/-- The progress line printed on line 5 before navigation. -/
def navigatingMsg : String := "Navigating to /onboarding..."

/-- The diagnostic line printed on line 12 showing the observed URL. -/
def currentUrlMsg (u : String) : String := "Current URL: " ++ u

/-- The success verdict printed on line 23. -/
def successMsg : String := "✅ Redirected to landing page as expected (unauthenticated)."

/-- The failure verdict printed on line 25, embedding the observed URL. -/
def failureMsg (u : String) : String := "❌ Failed to redirect. URL: " ++ u

/-- The generic error line printed on line 36 by the top-level handler. -/
def errorMsg (e : String) : String := "Error: " ++ e

/-- Python's `str.rstrip(chars)`: remove every trailing character of `s` that
belongs to `chars`.  Line 22 calls it as `page.url.rstrip('/')`, with
`chars = ['/']`. -/
def pyRstrip (chars : List Char) (s : String) : String :=
  String.mk (((s.data.reverse).dropWhile (fun c => chars.contains c)).reverse)

/-- Normalization as the specification describes it: strip a single trailing
slash (only one, and only if present).  This is the spec's claimed comparison
mechanism, kept distinct from the script's actual `pyRstrip`. -/
def specStripOneTrailingSlash (s : String) : String :=
  match s.data.getLast? with
  | some c => if c = '/' then String.mk s.data.dropLast else s
  | none => s

/-- Outcomes of all the effectful calls of one run of the script. -/
structure Env where
  launch : Except String Unit
  newPage : Except String Unit
  goto : Except String Unit
  waitForLoadState : Except String Unit
  url : String
  screenshot : Except String Unit

/-- Observable result of one run of the script. -/
structure RunResult where
  output : List String
  screenshots : List String
  browserCloses : Nat
  uncaught : Option String

/-- The body of `test_onboarding_protection(page)` (lines 3-27): print the
progress line, navigate, wait for network idle, print the observed URL, print
the verdict of `page.url.rstrip('/') == "http://localhost:5173"`, and take the
screenshot.  Returns the lines printed, the screenshot paths written, and the
exception that escaped the function, if any. -/
def test_onboarding_protection (env : Env) :
    List String × List String × Option String :=
  match env.goto with
  | Except.error e => ([navigatingMsg], [], some e)
  | Except.ok _ =>
    match env.waitForLoadState with
    | Except.error e => ([navigatingMsg], [], some e)
    | Except.ok _ =>
      let verdict : String :=
        if pyRstrip ['/'] env.url = baseUrl then successMsg else failureMsg env.url
      match env.screenshot with
      | Except.error e =>
        ([navigatingMsg, currentUrlMsg env.url, verdict], [], some e)
      | Except.ok _ =>
        ([navigatingMsg, currentUrlMsg env.url, verdict], [screenshotPath], none)

/-- The `__main__` block (lines 29-38): inside `with sync_playwright() as p`,
launch the browser and create a page (lines 31-32, outside the `try`), then run
`test_onboarding_protection` under `try/except/finally`: an exception from the
body is printed as `Error: ...` and `browser.close()` runs in the `finally` on
both paths.  An exception from `launch` or `new_page` is raised before the
`try` is entered, so it is never caught and `browser.close()` never runs. -/
def scriptMain (env : Env) : RunResult :=
  match env.launch with
  | Except.error e => ⟨[], [], 0, some e⟩
  | Except.ok _ =>
    match env.newPage with
    | Except.error e => ⟨[], [], 0, some e⟩
    | Except.ok _ =>
      match test_onboarding_protection env with
      | (out, shots, some e) => ⟨out ++ [errorMsg e], shots, 1, none⟩
      | (out, shots, none) => ⟨out, shots, 1, none⟩

/-- Process exit status of a run: 0 when no exception escaped to the
interpreter, nonzero (modelled as 1) otherwise. -/
def exitCode (r : RunResult) : Nat :=
  match r.uncaught with
  | none => 0
  | some _ => 1

/-! Helper lemmas: reductions of `scriptMain`, and disequalities between the printed
message families, obtained by comparing first characters. -/

lemma scriptMain_goto_err (e : String) (w sc : Except String Unit) (u : String) :
    scriptMain ⟨Except.ok (), Except.ok (), Except.error e, w, u, sc⟩ =
      ⟨[navigatingMsg, errorMsg e], [], 1, none⟩ := rfl

lemma scriptMain_wait_err (e : String) (sc : Except String Unit) (u : String) :
    scriptMain ⟨Except.ok (), Except.ok (), Except.ok (), Except.error e, u, sc⟩ =
      ⟨[navigatingMsg, errorMsg e], [], 1, none⟩ := rfl

lemma scriptMain_shot_err (u e : String) :
    scriptMain ⟨Except.ok (), Except.ok (), Except.ok (), Except.ok (), u, Except.error e⟩ =
      ⟨[navigatingMsg, currentUrlMsg u,
        if pyRstrip ['/'] u = baseUrl then successMsg else failureMsg u,
        errorMsg e], [], 1, none⟩ := rfl

lemma scriptMain_all_ok (u : String) :
    scriptMain ⟨Except.ok (), Except.ok (), Except.ok (), Except.ok (), u, Except.ok ()⟩ =
      ⟨[navigatingMsg, currentUrlMsg u,
        if pyRstrip ['/'] u = baseUrl then successMsg else failureMsg u],
       [screenshotPath], 1, none⟩ := rfl

lemma ne_of_heads (s t : String) (c d : Char) (hs : s.data.head? = some c)
    (ht : t.data.head? = some d) (hcd : ¬ c = d) : ¬ s = t := by
  intro hst
  rw [hst, ht] at hs
  exact hcd (Option.some.inj hs).symm

lemma success_ne_nav : ¬ successMsg = navigatingMsg := by decide

lemma success_ne_cur (u : String) : ¬ successMsg = currentUrlMsg u :=
  ne_of_heads _ _ '✅' 'C' rfl rfl (by decide)

lemma success_ne_fail (u : String) : ¬ successMsg = failureMsg u :=
  ne_of_heads _ _ '✅' '❌' rfl rfl (by decide)

lemma success_ne_err (e : String) : ¬ successMsg = errorMsg e :=
  ne_of_heads _ _ '✅' 'E' rfl rfl (by decide)

lemma fail_ne_nav (u : String) : ¬ failureMsg u = navigatingMsg :=
  ne_of_heads _ _ '❌' 'N' rfl rfl (by decide)

lemma fail_ne_cur (u v : String) : ¬ failureMsg u = currentUrlMsg v :=
  ne_of_heads _ _ '❌' 'C' rfl rfl (by decide)

lemma fail_ne_err (u e : String) : ¬ failureMsg u = errorMsg e :=
  ne_of_heads _ _ '❌' 'E' rfl rfl (by decide)

lemma err_ne_nav (e : String) : ¬ errorMsg e = navigatingMsg :=
  ne_of_heads _ _ 'E' 'N' rfl rfl (by decide)

lemma err_ne_cur (e v : String) : ¬ errorMsg e = currentUrlMsg v :=
  ne_of_heads _ _ 'E' 'C' rfl rfl (by decide)

lemma err_ne_fail (e u : String) : ¬ errorMsg e = failureMsg u :=
  ne_of_heads _ _ 'E' '❌' rfl rfl (by decide)

lemma successMsg_mem_main (u : String) (sc : Except String Unit) :
    (successMsg ∈ (scriptMain ⟨Except.ok (), Except.ok (), Except.ok (), Except.ok (),
        u, sc⟩).output ↔ pyRstrip ['/'] u = baseUrl) := by
  rcases sc with e | v
  · rw [scriptMain_shot_err]
    by_cases hc : pyRstrip ['/'] u = baseUrl
    · simp [hc]
    · simp [hc, success_ne_nav, success_ne_cur, success_ne_fail, success_ne_err]
  · rw [scriptMain_all_ok]
    by_cases hc : pyRstrip ['/'] u = baseUrl
    · simp [hc]
    · simp [hc, success_ne_nav, success_ne_cur, success_ne_fail]

lemma dropWhile_replicate_append (p : Char → Bool) (c : Char) (hp : p c = true)
    (t : List Char) (n : Nat) :
    List.dropWhile p (List.replicate n c ++ t) = List.dropWhile p t := by
  induction n with
  | zero => rfl
  | succ n ih => simp [List.replicate_succ, List.dropWhile_cons, hp, ih]

lemma pyRstrip_baseUrl_slashes (n : Nat) :
    pyRstrip ['/'] (String.mk (baseUrl.data ++ List.replicate n '/')) = baseUrl := by
  show String.mk (((baseUrl.data ++ List.replicate n '/').reverse.dropWhile
      (fun c => List.contains ['/'] c)).reverse) = baseUrl
  rw [List.reverse_append, List.reverse_replicate]
  rw [dropWhile_replicate_append _ '/' (by decide)]
  decide

/-- C1 counterexample: when navigation and the network-idle wait succeed and the
final URL is exactly `http://localhost:5173/`, but the screenshot call itself
raises, the success message is printed yet no screenshot file is written, so
the claim's conjunction fails at this run. -/
theorem C1_counterexample :
    successMsg ∈ (scriptMain ⟨Except.ok (), Except.ok (), Except.ok (), Except.ok (),
      "http://localhost:5173/", Except.error "screenshot failed"⟩).output ∧
    (scriptMain ⟨Except.ok (), Except.ok (), Except.ok (), Except.ok (),
      "http://localhost:5173/", Except.error "screenshot failed"⟩).screenshots = [] := by
  decide

/-- C1 (amended): for every run in which navigation settles without an
exception, the final observed URL is exactly `http://localhost:5173/`, and the
screenshot call does not raise, the script prints the success message and
writes the screenshot file. -/
theorem C1_success_and_screenshot (env : Env)
    (h1 : env.launch = Except.ok ()) (h2 : env.newPage = Except.ok ())
    (h3 : env.goto = Except.ok ()) (h4 : env.waitForLoadState = Except.ok ())
    (h5 : env.url = "http://localhost:5173/") (h6 : env.screenshot = Except.ok ()) :
    successMsg ∈ (scriptMain env).output ∧
      (scriptMain env).screenshots = [screenshotPath] := by
  rcases env with ⟨l, np, g, w, u, sc⟩
  dsimp only at h1 h2 h3 h4 h5 h6
  subst h1 h2 h3 h4 h5 h6
  decide

/-- Witness for C1 at the fully successful redirected run. -/
theorem C1_success_and_screenshot_witness :
    successMsg ∈ (scriptMain ⟨Except.ok (), Except.ok (), Except.ok (), Except.ok (),
      "http://localhost:5173/", Except.ok ()⟩).output ∧
    (scriptMain ⟨Except.ok (), Except.ok (), Except.ok (), Except.ok (),
      "http://localhost:5173/", Except.ok ()⟩).screenshots = [screenshotPath] :=
  C1_success_and_screenshot _ rfl rfl rfl rfl rfl rfl

/-- C2 counterexample: navigation settles without an exception and the final
URL stays `http://localhost:5173/onboarding`, but the later screenshot call
raises: the failure message is printed AND an error message is printed, so the
claim's "does not print an error message" fails at this run. -/
theorem C2_counterexample :
    failureMsg "http://localhost:5173/onboarding" ∈
      (scriptMain ⟨Except.ok (), Except.ok (), Except.ok (), Except.ok (),
        "http://localhost:5173/onboarding", Except.error "screenshot failed"⟩).output ∧
    errorMsg "screenshot failed" ∈
      (scriptMain ⟨Except.ok (), Except.ok (), Except.ok (), Except.ok (),
        "http://localhost:5173/onboarding", Except.error "screenshot failed"⟩).output := by
  decide

/-- C2 (amended): for every run in which navigation settles without an
exception and the final observed URL is `http://localhost:5173/onboarding`,
the script prints the failure message; and when the screenshot call also does
not raise, no error message is printed. -/
theorem C2_failure_no_error (env : Env)
    (h1 : env.launch = Except.ok ()) (h2 : env.newPage = Except.ok ())
    (h3 : env.goto = Except.ok ()) (h4 : env.waitForLoadState = Except.ok ())
    (h5 : env.url = "http://localhost:5173/onboarding") :
    failureMsg "http://localhost:5173/onboarding" ∈ (scriptMain env).output ∧
      (env.screenshot = Except.ok () →
        ∀ e, errorMsg e ∉ (scriptMain env).output) := by
  rcases env with ⟨l, np, g, w, u, sc⟩
  dsimp only at h1 h2 h3 h4 h5
  subst h1 h2 h3 h4 h5
  rcases sc with e0 | v
  · refine ⟨?_, ?_⟩
    · rw [scriptMain_shot_err, if_neg (by decide)]
      simp
    · intro h
      exact absurd h (by simp)
  · refine ⟨?_, ?_⟩
    · rw [show scriptMain ⟨Except.ok (), Except.ok (), Except.ok (), Except.ok (),
        "http://localhost:5173/onboarding", Except.ok ()⟩ =
          ⟨[navigatingMsg, currentUrlMsg "http://localhost:5173/onboarding",
            failureMsg "http://localhost:5173/onboarding"], [screenshotPath], 1, none⟩ from by
        rw [scriptMain_all_ok, if_neg (by decide)]]
      simp
    · intro _ e
      rw [show scriptMain ⟨Except.ok (), Except.ok (), Except.ok (), Except.ok (),
        "http://localhost:5173/onboarding", Except.ok ()⟩ =
          ⟨[navigatingMsg, currentUrlMsg "http://localhost:5173/onboarding",
            failureMsg "http://localhost:5173/onboarding"], [screenshotPath], 1, none⟩ from by
        rw [scriptMain_all_ok, if_neg (by decide)]]
      simp [err_ne_nav, err_ne_cur, err_ne_fail]

/-- Witness for C2 at the non-redirected, fully non-exceptional run. -/
theorem C2_failure_no_error_witness :
    failureMsg "http://localhost:5173/onboarding" ∈
      (scriptMain ⟨Except.ok (), Except.ok (), Except.ok (), Except.ok (),
        "http://localhost:5173/onboarding", Except.ok ()⟩).output ∧
    ((⟨Except.ok (), Except.ok (), Except.ok (), Except.ok (),
        "http://localhost:5173/onboarding", Except.ok ()⟩ : Env).screenshot = Except.ok () →
      ∀ e, errorMsg e ∉
        (scriptMain ⟨Except.ok (), Except.ok (), Except.ok (), Except.ok (),
          "http://localhost:5173/onboarding", Except.ok ()⟩).output) :=
  C2_failure_no_error _ rfl rfl rfl rfl rfl

/-- C3 counterexample: at observed URL `http://localhost:5173//` the script
prints the success message, yet stripping a single trailing slash from the
observed URL and from the expected landing URL leaves unequal strings — so the
comparison the script performs is not the spec's single-slash normalization. -/
theorem C3_counterexample :
    successMsg ∈ (scriptMain ⟨Except.ok (), Except.ok (), Except.ok (), Except.ok (),
      "http://localhost:5173//", Except.ok ()⟩).output ∧
    ¬ specStripOneTrailingSlash "http://localhost:5173//" =
        specStripOneTrailingSlash "http://localhost:5173/" := by
  decide

/-- C3 (amended): the comparison strips every trailing slash from the observed
URL (Python `rstrip('/')`) and strips nothing from the expected literal
`http://localhost:5173`: for every run past the wait, the success message is
printed exactly when the fully right-stripped observed URL equals that
literal; in particular `http://localhost:5173/` and `http://localhost:5173`
compare equal to it and `http://localhost:5173/onboarding` compares unequal. -/
theorem C3_normalization (env : Env)
    (h1 : env.launch = Except.ok ()) (h2 : env.newPage = Except.ok ())
    (h3 : env.goto = Except.ok ()) (h4 : env.waitForLoadState = Except.ok ()) :
    (successMsg ∈ (scriptMain env).output ↔ pyRstrip ['/'] env.url = baseUrl) ∧
      pyRstrip ['/'] "http://localhost:5173/" = baseUrl ∧
      pyRstrip ['/'] "http://localhost:5173" = baseUrl ∧
      ¬ pyRstrip ['/'] "http://localhost:5173/onboarding" = baseUrl := by
  rcases env with ⟨l, np, g, w, u, sc⟩
  dsimp only at h1 h2 h3 h4
  subst h1 h2 h3 h4
  exact ⟨successMsg_mem_main u sc, by decide, by decide, by decide⟩

/-- Witness for C3 at the redirected run with the trailing-slash URL. -/
theorem C3_normalization_witness :
    (successMsg ∈ (scriptMain ⟨Except.ok (), Except.ok (), Except.ok (), Except.ok (),
        "http://localhost:5173/", Except.ok ()⟩).output ↔
      pyRstrip ['/'] (⟨Except.ok (), Except.ok (), Except.ok (), Except.ok (),
        "http://localhost:5173/", Except.ok ()⟩ : Env).url = baseUrl) ∧
    pyRstrip ['/'] "http://localhost:5173/" = baseUrl ∧
    pyRstrip ['/'] "http://localhost:5173" = baseUrl ∧
    ¬ pyRstrip ['/'] "http://localhost:5173/onboarding" = baseUrl :=
  C3_normalization _ rfl rfl rfl rfl

/-- C8: the actual normalization strips every trailing slash from the
observed URL and nothing from the expected literal, so for every observed URL
consisting of `http://localhost:5173` followed by any number of trailing
slashes, a run whose navigation settles prints the success message. -/
theorem C8_any_number_of_slashes (n : Nat) (env : Env)
    (h1 : env.launch = Except.ok ()) (h2 : env.newPage = Except.ok ())
    (h3 : env.goto = Except.ok ()) (h4 : env.waitForLoadState = Except.ok ())
    (h5 : env.url = String.mk (baseUrl.data ++ List.replicate n '/')) :
    successMsg ∈ (scriptMain env).output := by
  rcases env with ⟨l, np, g, w, u, sc⟩
  dsimp only at h1 h2 h3 h4 h5
  subst h1 h2 h3 h4 h5
  exact (successMsg_mem_main _ sc).mpr (pyRstrip_baseUrl_slashes n)

/-- Witness for C8 at the double-trailing-slash URL `http://localhost:5173//`. -/
theorem C8_any_number_of_slashes_witness :
    successMsg ∈ (scriptMain ⟨Except.ok (), Except.ok (), Except.ok (), Except.ok (),
      String.mk (baseUrl.data ++ List.replicate 2 '/'), Except.ok ()⟩).output :=
  C8_any_number_of_slashes 2 _ rfl rfl rfl rfl rfl

lemma scriptMain_uncaught_none (env : Env)
    (h1 : env.launch = Except.ok ()) (h2 : env.newPage = Except.ok ()) :
    (scriptMain env).uncaught = none := by
  rcases env with ⟨l, np, g, w, u, sc⟩
  dsimp only at h1 h2
  subst h1 h2
  rcases g with e | v
  · rfl
  · rcases w with e | v
    · rfl
    · rcases sc with e | v <;> rfl

/-- C4 counterexample: an exception while creating the page (step 1,
acquisition) is raised on line 32, before the `try` on line 33 is entered: it
escapes the script uncaught and no error message is printed. -/
theorem C4_counterexample :
    (scriptMain ⟨Except.ok (), Except.error "new page failed", Except.ok (), Except.ok (),
      "", Except.ok ()⟩).uncaught = some "new page failed" ∧
    (scriptMain ⟨Except.ok (), Except.error "new page failed", Except.ok (), Except.ok (),
      "", Except.ok ()⟩).output = [] := by
  decide

/-- C4 (amended): once the browser and page are acquired, every exception
raised in the `try` body — during navigation, the network-idle wait, or the
screenshot — is caught at the top level, a generic error message containing
the error's description is printed, and nothing escapes the script; exceptions
during acquisition itself (browser launch or page creation) are not caught. -/
theorem C4_catches_after_acquisition (env : Env) (e : String)
    (h1 : env.launch = Except.ok ()) (h2 : env.newPage = Except.ok ()) :
    (scriptMain env).uncaught = none ∧
      ((env.goto = Except.error e ∨
        (env.goto = Except.ok () ∧ env.waitForLoadState = Except.error e) ∨
        (env.goto = Except.ok () ∧ env.waitForLoadState = Except.ok () ∧
          env.screenshot = Except.error e)) →
        errorMsg e ∈ (scriptMain env).output) := by
  refine ⟨scriptMain_uncaught_none env h1 h2, ?_⟩
  rcases env with ⟨l, np, g, w, u, sc⟩
  dsimp only at h1 h2 ⊢
  subst h1 h2
  intro h
  rcases h with hg | ⟨hg, hw⟩ | ⟨hg, hw, hs⟩
  · subst hg
    rw [scriptMain_goto_err]
    simp
  · subst hg hw
    rw [scriptMain_wait_err]
    simp
  · subst hg hw hs
    rw [scriptMain_shot_err]
    simp

/-- A run whose navigation raises, used to witness the error-handling theorems. -/
def envGotoErr : Env :=
  ⟨Except.ok (), Except.ok (), Except.error "net::ERR_CONNECTION_REFUSED", Except.ok (),
    "", Except.ok ()⟩

/-- Witness for C4 at a run whose navigation raises a connection error. -/
theorem C4_catches_after_acquisition_witness :
    (scriptMain envGotoErr).uncaught = none ∧
      ((envGotoErr.goto = Except.error "net::ERR_CONNECTION_REFUSED" ∨
        (envGotoErr.goto = Except.ok () ∧
          envGotoErr.waitForLoadState = Except.error "net::ERR_CONNECTION_REFUSED") ∨
        (envGotoErr.goto = Except.ok () ∧ envGotoErr.waitForLoadState = Except.ok () ∧
          envGotoErr.screenshot = Except.error "net::ERR_CONNECTION_REFUSED")) →
        errorMsg "net::ERR_CONNECTION_REFUSED" ∈ (scriptMain envGotoErr).output) :=
  C4_catches_after_acquisition envGotoErr "net::ERR_CONNECTION_REFUSED" rfl rfl

/-- C5 counterexample: when the browser fails to launch (line 31, outside the
`try`), the exception escapes to the interpreter and the process exit status
is not 0. -/
theorem C5_counterexample :
    ¬ exitCode (scriptMain ⟨Except.error "browser launch failed", Except.ok (),
      Except.ok (), Except.ok (), "", Except.ok ()⟩) = 0 := by
  decide

/-- C5 (amended): for every run in which browser launch and page creation
succeed, the script exits with status 0, whether the redirect check passed,
failed, or raised inside the `try` body; a failure of launch or page creation
itself escapes uncaught and yields a nonzero exit status. -/
theorem C5_exit_zero_after_acquisition (env : Env)
    (h1 : env.launch = Except.ok ()) (h2 : env.newPage = Except.ok ()) :
    exitCode (scriptMain env) = 0 := by
  have h := scriptMain_uncaught_none env h1 h2
  simp [exitCode, h]

/-- Witness for C5 at a run whose navigation raises a connection error. -/
theorem C5_exit_zero_after_acquisition_witness :
    exitCode (scriptMain envGotoErr) = 0 :=
  C5_exit_zero_after_acquisition envGotoErr rfl rfl

/-- C6 counterexample: when page creation raises on line 32, the `try/finally`
of lines 33-38 is never entered, so `browser.close()` is called zero times,
not once. -/
theorem C6_counterexample :
    (scriptMain ⟨Except.ok (), Except.error "new page failed", Except.ok (), Except.ok (),
      "page never created", Except.ok ()⟩).browserCloses = 0 := by
  decide

/-- C6 (amended): on every path where browser launch and page creation
succeed — normal completion or an error anywhere in the `try` body — the
browser is closed exactly once; when page creation raises, the explicit
`browser.close()` is never invoked. -/
theorem C6_close_exactly_once (env : Env)
    (h1 : env.launch = Except.ok ()) (h2 : env.newPage = Except.ok ()) :
    (scriptMain env).browserCloses = 1 := by
  rcases env with ⟨l, np, g, w, u, sc⟩
  dsimp only at h1 h2
  subst h1 h2
  rcases g with e | v
  · rfl
  · rcases w with e | v
    · rfl
    · rcases sc with e | v <;> rfl

/-- Witness for C6 at a run whose navigation raises a connection error. -/
theorem C6_close_exactly_once_witness :
    (scriptMain envGotoErr).browserCloses = 1 :=
  C6_close_exactly_once envGotoErr rfl rfl

/-- Options of a Playwright `page.screenshot` call: the file path and the
`full_page` flag, whose library default is `False` (a viewport-only capture). -/
structure ScreenshotCall where
  path : String
  full_page : Bool

/-- The `page.screenshot(path="verification_redirect.png")` call on line 27:
only `path` is passed, so `full_page` keeps Playwright's default `False` — the
capture is of the viewport only, not of the full page. -/
def line27Screenshot : ScreenshotCall :=
  ⟨screenshotPath, false⟩

/-- C7 counterexample: at a concrete non-exceptional run the screenshot
written is the one requested by line 27, and that call's `full_page` option is
`false` (line 27 passes only `path`, and Playwright defaults `full_page` to
`False`): the capture is viewport-only, so the claim's "full-page screenshot"
conjunct fails. -/
theorem C7_counterexample :
    (scriptMain ⟨Except.ok (), Except.ok (), Except.ok (), Except.ok (),
      "http://localhost:5173/onboarding", Except.ok ()⟩).screenshots =
        [line27Screenshot.path] ∧
    line27Screenshot.full_page = false := by
  decide

/-- C7 (amended): on every non-exceptional run — whichever verdict was
printed — a screenshot is written to the fixed relative path
`verification_redirect.png` (a fixed-path write, which overwrites any previous
file there) and no exception escapes; the capture is viewport-only, not
full-page, since line 27 leaves `full_page` at its default `False`. -/
theorem C7_screenshot_written_viewport (env : Env)
    (h1 : env.launch = Except.ok ()) (h2 : env.newPage = Except.ok ())
    (h3 : env.goto = Except.ok ()) (h4 : env.waitForLoadState = Except.ok ())
    (h6 : env.screenshot = Except.ok ()) :
    (scriptMain env).screenshots = [line27Screenshot.path] ∧
      line27Screenshot.path = screenshotPath ∧
      line27Screenshot.full_page = false ∧
      (scriptMain env).uncaught = none := by
  rcases env with ⟨l, np, g, w, u, sc⟩
  dsimp only at h1 h2 h3 h4 h6
  subst h1 h2 h3 h4 h6
  exact ⟨rfl, rfl, rfl, rfl⟩

/-- Witness for C7 at a redirected, fully non-exceptional run. -/
theorem C7_screenshot_written_viewport_witness :
    (scriptMain ⟨Except.ok (), Except.ok (), Except.ok (), Except.ok (),
      "http://localhost:5173", Except.ok ()⟩).screenshots =
        [line27Screenshot.path] ∧
    line27Screenshot.path = screenshotPath ∧
    line27Screenshot.full_page = false ∧
    (scriptMain ⟨Except.ok (), Except.ok (), Except.ok (), Except.ok (),
      "http://localhost:5173", Except.ok ()⟩).uncaught = none :=
  C7_screenshot_written_viewport _ rfl rfl rfl rfl rfl

/-- A printed line is a verdict line of a run with observed URL `u` when it is
the success message of line 23 or the failure message of line 25. -/
def isVerdictLine (u s : String) : Bool :=
  decide (s = successMsg) || decide (s = failureMsg u)

/-- C9: on every non-exceptional run, exactly one of the two verdict messages
(the success message or the failure message for the observed URL) is
printed — never both and never neither. -/
theorem C9_exactly_one_verdict (env : Env)
    (h1 : env.launch = Except.ok ()) (h2 : env.newPage = Except.ok ())
    (h3 : env.goto = Except.ok ()) (h4 : env.waitForLoadState = Except.ok ())
    (h6 : env.screenshot = Except.ok ()) :
    ((scriptMain env).output.countP (isVerdictLine env.url)) = 1 := by
  rcases env with ⟨l, np, g, w, u, sc⟩
  dsimp only at h1 h2 h3 h4 h6 ⊢
  subst h1 h2 h3 h4 h6
  rw [scriptMain_all_ok]
  have d1 : decide (navigatingMsg = successMsg) = false := by decide
  have d2 : decide (navigatingMsg = failureMsg u) = false :=
    decide_eq_false (fun h => fail_ne_nav u h.symm)
  have d3 : decide (currentUrlMsg u = successMsg) = false :=
    decide_eq_false (fun h => success_ne_cur u h.symm)
  have d4 : decide (currentUrlMsg u = failureMsg u) = false :=
    decide_eq_false (fun h => fail_ne_cur u u h.symm)
  have d5 : decide (successMsg = failureMsg u) = false :=
    decide_eq_false (success_ne_fail u)
  have d6 : decide (failureMsg u = successMsg) = false :=
    decide_eq_false (fun h => success_ne_fail u h.symm)
  by_cases hc : pyRstrip ['/'] u = baseUrl
  · rw [if_pos hc]
    simp [isVerdictLine, List.countP_cons, List.countP_nil, d1, d2, d3, d4, d5]
  · rw [if_neg hc]
    simp [isVerdictLine, List.countP_cons, List.countP_nil, d1, d2, d3, d4, d6]

/-- Witness for C9 at the redirected non-exceptional run. -/
theorem C9_exactly_one_verdict_witness :
    ((scriptMain ⟨Except.ok (), Except.ok (), Except.ok (), Except.ok (),
        "http://localhost:5173/", Except.ok ()⟩).output.countP
      (isVerdictLine (⟨Except.ok (), Except.ok (), Except.ok (), Except.ok (),
        "http://localhost:5173/", Except.ok ()⟩ : Env).url)) = 1 :=
  C9_exactly_one_verdict _ rfl rfl rfl rfl rfl

/-- C10: when navigation or the network-idle wait raises (before the URL
comparison), the run prints exactly the progress line followed by the error
message — no verdict message of either kind — and writes no screenshot. -/
theorem C10_error_before_comparison (env : Env) (e : String)
    (h1 : env.launch = Except.ok ()) (h2 : env.newPage = Except.ok ())
    (h : env.goto = Except.error e ∨
      (env.goto = Except.ok () ∧ env.waitForLoadState = Except.error e)) :
    (scriptMain env).output = [navigatingMsg, errorMsg e] ∧
      (scriptMain env).screenshots = [] ∧
      successMsg ∉ (scriptMain env).output ∧
      (∀ u, failureMsg u ∉ (scriptMain env).output) := by
  rcases env with ⟨l, np, g, w, u, sc⟩
  dsimp only at h1 h2 h ⊢
  subst h1 h2
  have hout : scriptMain ⟨Except.ok (), Except.ok (), g, w, u, sc⟩ =
      ⟨[navigatingMsg, errorMsg e], [], 1, none⟩ := by
    rcases h with hg | ⟨hg, hw⟩
    · subst hg
      exact scriptMain_goto_err e w sc u
    · subst hg hw
      exact scriptMain_wait_err e sc u
  rw [hout]
  refine ⟨rfl, rfl, ?_, ?_⟩
  · simp [success_ne_nav, success_ne_err]
  · intro v
    simp [fail_ne_nav, fail_ne_err]

/-- Witness for C10 at a run whose navigation raises a connection error. -/
theorem C10_error_before_comparison_witness :
    (scriptMain envGotoErr).output =
        [navigatingMsg, errorMsg "net::ERR_CONNECTION_REFUSED"] ∧
      (scriptMain envGotoErr).screenshots = [] ∧
      successMsg ∉ (scriptMain envGotoErr).output ∧
      (∀ u, failureMsg u ∉ (scriptMain envGotoErr).output) :=
  C10_error_before_comparison envGotoErr "net::ERR_CONNECTION_REFUSED" rfl rfl
    (Or.inl rfl)
